import Mathlib

/-!
Shallow embedding of the v1.0 issue-credential protocol engine
(`aries_cloudagent/protocols/issue_credential/v1_0/manager.py`).

Pure data stands in for the Python objects; every external capability
(ledger, issuer, holder, revocation registry store, cache, record store)
is an explicit environment value threaded into each flow.  Side effects on
external capabilities (cryptographic calls, notifications, sleeps, record
saves) are logged in an explicit effect trace so that claims about
"no cryptographic side-effect" and "emits exactly two notifications"
become statements about the trace.
-/

set_option autoImplicit false

namespace IssueCredV1

/-- Protocol states of a credential exchange record
(`V10CredentialExchange.STATE_*`).  The abandoned state is represented as
`none` in the record state field, as in the persisted form. -/
inductive CredExState where
  | proposalSent
  | proposalReceived
  | offerSent
  | offerReceived
  | requestSent
  | requestReceived
  | issued
  | credentialReceived
  | acked
deriving DecidableEq, Repr

/-- Which party started the exchange (`initiator` field). -/
inductive Initiator where
  | selfStarted
  | externalStarted
deriving DecidableEq, Repr

/-- Role of the local agent in the exchange. -/
inductive Role where
  | issuer
  | holder
deriving DecidableEq, Repr

/-- Raw indy credential offer payload: the fields the engine reads
(`schema_id`, `cred_def_id`, `nonce`), plus the opaque remainder
(key correctness proof etc.) as `rest`. -/
structure IndyOffer where
  schema_id : String
  cred_def_id : String
  nonce : String
  rest : String
deriving DecidableEq, Repr

/-- Raw indy credential request payload, opaque to the engine. -/
structure IndyCredRequest where
  payload : String
deriving DecidableEq, Repr

/-- Raw indy credential payload: the engine reads `cred_def_id` and
`rev_reg_id` when storing; the remainder is opaque. -/
structure IndyCredential where
  cred_def_id : String
  rev_reg_id : Option String
  payload : String
deriving DecidableEq, Repr

/-- Credential proposal message content: optional comment, the preview as a
list of attribute names (the values are opaque to the claims verified here),
and the cred-def selector fields (`CRED_DEF_TAGS`).  A `none` selector models
an absent or empty (hence falsy) attribute on the message. -/
structure CredentialProposalMsg where
  comment : Option String
  preview : Option (List String)
  schema_id : Option String
  schema_issuer_did : Option String
  schema_name : Option String
  schema_version : Option String
  cred_def_id : Option String
  issuer_did : Option String
deriving DecidableEq, Repr

/-- The credential exchange record (`V10CredentialExchange`).  `state = none`
models both an unset state on a fresh record and the abandoned (null) state
after a problem report. -/
structure CredExRecord where
  credential_exchange_id : String
  connection_id : Option String := none
  thread_id : Option String := none
  parent_thread_id : Option String := none
  initiator : Option Initiator := none
  role : Option Role := none
  state : Option CredExState := none
  credential_proposal_dict : Option CredentialProposalMsg := none
  credential_offer : Option IndyOffer := none
  credential_request : Option IndyCredRequest := none
  credential_request_metadata : Option String := none
  raw_credential : Option IndyCredential := none
  credential : Option IndyCredential := none
  credential_id : Option String := none
  schema_id : Option String := none
  credential_definition_id : Option String := none
  revoc_reg_id : Option String := none
  revocation_id : Option Nat := none
  error_msg : Option String := none
  auto_offer : Bool := false
  auto_issue : Bool := false
  auto_remove : Bool := true
  trace : Bool := false
deriving DecidableEq, Repr

/-- Errors surfaced by the manager.  `wrongState` carries exactly the data
interpolated into the `CredentialManagerError` message at the
state-precondition raise sites: exchange id, observed state, expected
state. -/
inductive CredMgrErr where
  | wrongState (exchange_id : String) (observed : Option CredExState)
      (expected : CredExState)
  | noUsableCredDef
  | previewMismatch (previewAttrs schemaAttrs : List String)
  | noActiveRevocationRegistry (cred_def_id : String)
  | revocRegFull
  | badAttachmentCount
  | cantStartFromRequest
  | storageNotFound
  | storageDuplicate
  | holderStoreFailure
  | missingField
deriving DecidableEq, Repr

/-- Observable effects on external capabilities, in execution order. -/
inductive Eff where
  | issuerCreateOffer (cred_def_id : String)
  | holderCreateRequest (cred_def_id : String) (holder_did : String)
  | issuerCreateCredential (exchange_id : String)
  | holderStoreCredential (credential_id : String)
  | notifyRevRegEvent (cred_def_id : String) (size : Option Nat)
      (auto_create_rev_reg : Bool)
  | setRevRegFull (rev_reg_id : String)
  | sleepSecs (n : Nat)
  | saveRecord (reason : String)
  | deleteRecord (exchange_id : String)
deriving DecidableEq, Repr

deriving instance DecidableEq for Except

/-- Result of one flow invocation: the record as it stands afterwards
(mutations are applied in place in the source, so the partially mutated
record survives an error), the outcome, and the effect trace. -/
structure Flow (μ : Type) where
  record : CredExRecord
  result : Except CredMgrErr μ
  effs : List Eff
deriving DecidableEq, Repr

/-! ## Record store lookups -/

/-- Result of a storage retrieve: the tag filter matched exactly one record,
none (`StorageNotFoundError`), or several (`StorageDuplicateError`). -/
inductive LookupRes where
  | found (r : CredExRecord)
  | notFound
  | duplicate
deriving DecidableEq, Repr

/-- Embeds `V10CredentialExchange.retrieve_by_connection_and_thread`. -/
def retrieve_by_connection_and_thread (store : List CredExRecord)
    (conn thid : String) : LookupRes :=
  match store.filter
      (fun r => r.connection_id == some conn && r.thread_id == some thid) with
  | [] => .notFound
  | [r] => .found r
  | _ => .duplicate

/-- Embeds `V10CredentialExchange.retrieve_by_tag_filter` on thread id with post
filter requiring an unset connection id, as used by `receive_request`. -/
def retrieve_by_thread_no_connection (store : List CredExRecord)
    (thid : String) : LookupRes :=
  match store.filter
      (fun r => r.thread_id == some thid && r.connection_id == none) with
  | [] => .notFound
  | [r] => .found r
  | _ => .duplicate

/-! ## Holder side: receive_credential -/

/-- Inbound `credential-issue` message: thread id plus the list of
credential attachments (`credentials~attach`). -/
structure CredentialIssueMsgIn where
  thread_id : String
  credentials_attach : List IndyCredential
deriving DecidableEq, Repr

/-- Embeds `CredentialManager.receive_credential`: assert exactly one credential
attachment, retrieve the record by (connection, thread), attach the raw
credential, set state to CREDENTIAL_RECEIVED, save.  No state precondition
is checked. -/
def receive_credential (store : List CredExRecord)
    (message : CredentialIssueMsgIn) (connection_id : String) :
    Except CredMgrErr (CredExRecord × List Eff) :=
  match message.credentials_attach with
  | [raw] =>
    match retrieve_by_connection_and_thread store connection_id
        message.thread_id with
    | .found r =>
      .ok ({ r with raw_credential := some raw,
                    state := some .credentialReceived },
           [.saveRecord "receive credential"])
    | .notFound => .error .storageNotFound
    | .duplicate => .error .storageDuplicate
  | _ => .error .badAttachmentCount

/-! ## Issuer side: cred-def selection and create_offer -/

/-- A storage record of type `CRED_DEF_SENT_RECORD_TYPE`: the tags the agent
writes when it posts a credential definition to the ledger.  The `epoch` tag
is the integer parsed by `_match_sent_cred_def_id` (records written by the
sender always carry it). -/
structure CredDefSentRecord where
  schema_id : String
  schema_issuer_did : String
  schema_name : String
  schema_version : String
  issuer_did : String
  cred_def_id : String
  epoch : Nat
deriving DecidableEq, Repr

/-- The tag query built in `create_offer`: each `CRED_DEF_TAGS` attribute of
the proposal message that is present (truthy) must equal the stored tag of
the record; absent selectors do not constrain. -/
def matchesProposal (p : CredentialProposalMsg) (r : CredDefSentRecord) :
    Bool :=
  p.schema_id.all (fun v => v == r.schema_id) &&
  p.schema_issuer_did.all (fun v => v == r.schema_issuer_did) &&
  p.schema_name.all (fun v => v == r.schema_name) &&
  p.schema_version.all (fun v => v == r.schema_version) &&
  p.issuer_did.all (fun v => v == r.issuer_did) &&
  p.cred_def_id.all (fun v => v == r.cred_def_id)

/-- Python `max(found, key=lambda r: int(r.tags["epoch"]))`: scan left to
right, replacing the best only on a strictly larger epoch (so the first
maximal element wins ties, as in Python). -/
def maxEpoch (best : CredDefSentRecord) : List CredDefSentRecord →
    CredDefSentRecord
  | [] => best
  | r :: rs => maxEpoch (if r.epoch > best.epoch then r else best) rs

/-- Embeds `CredentialManager._match_sent_cred_def_id`: filter the sent cred-def
records by the tag query, fail when none match, otherwise return the
cred_def_id of the record with the largest epoch tag. -/
def match_sent_cred_def_id (store : List CredDefSentRecord)
    (p : CredentialProposalMsg) : Except CredMgrErr String :=
  match store.filter (matchesProposal p) with
  | [] => .error .noUsableCredDef
  | r :: rs => .ok (maxEpoch r rs).cred_def_id

/-- A ledger schema as read by the engine: its attribute names. -/
structure Schema where
  attrNames : List String
deriving DecidableEq, Repr

/-- Python set equality of two attribute-name lists. -/
def sameSet (a b : List String) : Bool :=
  a.all (fun x => b.contains x) && b.all (fun x => a.contains x)

/-- Environment of `create_offer`: the sent cred-def records, the ledger,
the issuer capability, and the optional dedup cache.  `cacheEntry = none`
models no configured cache; `some none` a configured cache whose entry under
the offer key has no result yet; `some (some v)` a cache hit `v`. -/
structure OfferEnv where
  sentCredDefs : List CredDefSentRecord
  credDefId2SchemaId : String → String
  schemaOf : String → Schema
  issuerOffer : String → IndyOffer
  cacheEntry : Option (Option IndyOffer)

/-- Outbound (or inbound) `credential-offer` message: resolved thread id,
optional comment, preview attribute names, and the single attached indy
offer payload. -/
structure CredentialOfferMsg where
  thread_id : String
  comment : Option String
  previewAttrs : List String
  offer : IndyOffer
deriving DecidableEq, Repr

/-- Embeds `CredentialManager.create_offer`.  `msgId` is the fresh message id the
outbound offer message would receive; it becomes the thread id when the
record does not yet carry one.  Steps, in source order: pick the counter
proposal if given else the stored proposal; resolve the cred-def id through
`match_sent_cred_def_id`; vet the preview attribute names against the schema
attrNames; obtain the offer payload through the cache or the issuer; then
mutate the record (thread id, schema id, cred def id, state OFFER_SENT,
proposal, offer) and save. -/
def create_offer (env : OfferEnv) (rec : CredExRecord)
    (counter_proposal : Option CredentialProposalMsg)
    (comment : Option String) (msgId : String) : Flow CredentialOfferMsg :=
  let proposal? := match counter_proposal with
    | some p => some p
    | none => rec.credential_proposal_dict
  match proposal? with
  | none => ⟨rec, .error .missingField, []⟩
  | some proposal =>
    match match_sent_cred_def_id env.sentCredDefs proposal with
    | .error e => ⟨rec, .error e, []⟩
    | .ok cred_def_id =>
      match proposal.preview with
      | none => ⟨rec, .error .missingField, []⟩
      | some previewAttrs =>
        let schema := env.schemaOf (env.credDefId2SchemaId cred_def_id)
        if sameSet previewAttrs schema.attrNames = false then
          ⟨rec, .error (.previewMismatch previewAttrs schema.attrNames), []⟩
        else
          let gen := match env.cacheEntry with
            | some (some cached) => (cached, ([] : List Eff))
            | some none =>
              (env.issuerOffer cred_def_id, [.issuerCreateOffer cred_def_id])
            | none =>
              (env.issuerOffer cred_def_id, [.issuerCreateOffer cred_def_id])
          let offer := gen.1
          let thid := rec.thread_id.getD msgId
          let msg : CredentialOfferMsg :=
            { thread_id := thid, comment := comment,
              previewAttrs := previewAttrs, offer := offer }
          let rec' := { rec with
            thread_id := some thid,
            schema_id := some offer.schema_id,
            credential_definition_id := some offer.cred_def_id,
            state := some .offerSent,
            credential_proposal_dict := some proposal,
            credential_offer := some offer }
          ⟨rec', .ok msg, gen.2 ++ [.saveRecord "create credential offer"]⟩

/-! ## Holder side: receive_offer -/

/-- Embeds `CredentialManager.receive_offer`: rebuild a proposal from the inbound
offer, retrieve the record by (connection, thread) or create a fresh holder
record (`freshId` is the new exchange id, `preserve_exchange_records` the
profile setting), then unconditionally record the offer payload, state
OFFER_RECEIVED, schema id and cred def id, and save. -/
def receive_offer (store : List CredExRecord) (message : CredentialOfferMsg)
    (connection_id : String) (preserve_exchange_records : Bool)
    (freshId : String) : Except CredMgrErr (CredExRecord × List Eff) :=
  let indy_offer := message.offer
  let proposal : CredentialProposalMsg :=
    { comment := message.comment,
      preview := some message.previewAttrs,
      schema_id := some indy_offer.schema_id,
      schema_issuer_did := none, schema_name := none, schema_version := none,
      cred_def_id := some indy_offer.cred_def_id, issuer_did := none }
  let base? : Except CredMgrErr CredExRecord :=
    match retrieve_by_connection_and_thread store connection_id
        message.thread_id with
    | .found r => .ok { r with credential_proposal_dict := some proposal }
    | .notFound => .ok
        { credential_exchange_id := freshId,
          connection_id := some connection_id,
          thread_id := some message.thread_id,
          initiator := some .externalStarted,
          role := some .holder,
          credential_proposal_dict := some proposal,
          auto_remove := !preserve_exchange_records }
    | .duplicate => .error .storageDuplicate
  match base? with
  | .error e => .error e
  | .ok base =>
    .ok ({ base with
            credential_offer := some indy_offer,
            state := some .offerReceived,
            schema_id := some indy_offer.schema_id,
            credential_definition_id := some indy_offer.cred_def_id },
         [.saveRecord "receive credential offer"])

/-! ## Holder side: create_request -/

/-- Outbound `credential-request` message: the single attached request
payload, threaded with the record thread id. -/
structure CredentialRequestMsg where
  thread_id : Option String
  request : IndyCredRequest
deriving DecidableEq, Repr

/-- Environment of `create_request`: the holder capability producing a
(request, metadata) pair from the stored offer and the holder DID, and the
optional dedup cache entry under the request key (same convention as
`OfferEnv.cacheEntry`). -/
structure RequestEnv where
  holderCreateRequest : IndyOffer → String → IndyCredRequest × String
  cacheEntry : Option (Option (IndyCredRequest × String))

/-- Embeds `CredentialManager.create_request`.  Source order: wrong-state guard
(must be OFFER_RECEIVED); read the stored offer payload (an absent offer is
an attribute error in the source, modelled as `missingField`); when a
request is already present, log and skip generation; otherwise generate via
cache or holder (a missing cred def id would fail the ledger lookup) and
store request and metadata on the record; finally wrap the stored request,
set state REQUEST_SENT, and save. -/
def create_request (env : RequestEnv) (rec : CredExRecord)
    (holder_did : String) : Flow CredentialRequestMsg :=
  if rec.state ≠ some CredExState.offerReceived then
    ⟨rec, .error (.wrongState rec.credential_exchange_id rec.state
        .offerReceived), []⟩
  else
    match rec.credential_offer with
    | none => ⟨rec, .error .missingField, []⟩
    | some offer =>
      if rec.credential_request.isSome then
        -- re-entrant call: warn, skip the cryptographic step
        let rec' := { rec with state := some .requestSent }
        match rec.credential_request with
        | some req =>
          ⟨rec', .ok { thread_id := rec.thread_id, request := req },
           [.saveRecord "create credential request"]⟩
        | none => ⟨rec, .error .missingField, []⟩
      else
        match rec.credential_definition_id with
        | none => ⟨rec, .error .missingField, []⟩
        | some cdi =>
          let gen := match env.cacheEntry with
            | some (some cached) => (cached, ([] : List Eff))
            | some none =>
              (env.holderCreateRequest offer holder_did,
               [.holderCreateRequest cdi holder_did])
            | none =>
              (env.holderCreateRequest offer holder_did,
               [.holderCreateRequest cdi holder_did])
          let rec' := { rec with
            credential_request := some gen.1.1,
            credential_request_metadata := some gen.1.2,
            state := some .requestSent }
          ⟨rec', .ok { thread_id := rec.thread_id, request := gen.1.1 },
           gen.2 ++ [.saveRecord "create credential request"]⟩

/-! ## Issuer side: receive_request -/

/-- Inbound `credential-request` message. -/
structure CredentialRequestMsgIn where
  thread_id : String
  requests_attach : List IndyCredRequest
deriving DecidableEq, Repr

/-- Embeds `CredentialManager.receive_request`: assert exactly one request
attachment; retrieve the record by (connection, thread); on a miss, fall
back to the unique record with this thread id and no connection id, binding
the inbound connection id to it; when both lookups miss, fail.  Then store
the request payload, set state REQUEST_RECEIVED, save. -/
def receive_request (store : List CredExRecord)
    (message : CredentialRequestMsgIn) (connection_id : String) :
    Except CredMgrErr (CredExRecord × List Eff) :=
  match message.requests_attach with
  | [req] =>
    let base? : Except CredMgrErr CredExRecord :=
      match retrieve_by_connection_and_thread store connection_id
          message.thread_id with
      | .found r => .ok r
      | .duplicate => .error .storageDuplicate
      | .notFound =>
        match retrieve_by_thread_no_connection store message.thread_id with
        | .found r => .ok { r with connection_id := some connection_id }
        | .duplicate => .error .storageDuplicate
        | .notFound => .error .cantStartFromRequest
    match base? with
    | .error e => .error e
    | .ok base =>
      .ok ({ base with
              credential_request := some req,
              state := some .requestReceived },
           [.saveRecord "receive credential request"])
  | _ => .error .badAttachmentCount

/-! ## Issuer side: issue_credential with revocation retry -/

/-- An issuer revocation-registry record as the engine reads it: the ledger
registry id, the maximum credential capacity, and a creation stamp used for
the prior-size reuse ordering. -/
structure RevRegRec where
  revoc_reg_id : String
  max_cred_num : Nat
  created_at : Nat
deriving DecidableEq, Repr

/-- Modelled from the spec: the ordering applied by the source to
`IssuerRevRegRecord` lists (its comparison method lives outside the sources
of this repository).  The spec reads, for the prior-size reuse, "reusing the
size of the most-recently-created existing record if any", so the record
picked by `mostRecentRevReg` is the one with the largest creation stamp
(first such on ties); this is the binary pick step. -/
def pickMoreRecent (best x : RevRegRec) : RevRegRec :=
  if x.created_at > best.created_at then x else best

/-- See the comment above `pickMoreRecent`: the record whose size is reused
is the most-recently-created one (first such on ties). -/
def mostRecentRevReg : List RevRegRec → Option RevRegRec
  | [] => none
  | r :: rs => some (rs.foldl pickMoreRecent r)

/-- Outcome of `issuer.create_credential`: a credential plus the revocation
id it occupies (a numeric string in the source, `none` when the credential
is not revocable), or the registry-full failure. -/
inductive CreateCredResult where
  | created (credential : IndyCredential) (revocation_id : Option Nat)
  | registryFull
deriving DecidableEq, Repr

/-- Environment of `issue_credential`.  The revocation queries and the
issuer outcome are indexed by the remaining-retries counter of the attempt
observing them: the flow re-queries the (possibly changed) world on every
recursive attempt, and the counter strictly decreases, so distinct attempts
read distinct slots.  `activeRevReg _ = none` models the
`StorageNotFoundError` of `get_active_issuer_rev_reg_record`. -/
structure IssueEnv where
  credDefRevocable : String → Bool
  activeRevReg : Nat → Option RevRegRec
  postedRevRegs : Nat → List RevRegRec
  allRevRegs : Nat → List RevRegRec
  createCred : Nat → CreateCredResult

/-- Outbound `credential-issue` message. -/
structure CredentialIssueMsg where
  thread_id : Option String
  comment : Option String
  credential : IndyCredential
deriving DecidableEq, Repr

/-- Embeds `CredentialManager.issue_credential`.  Source order: wrong-state guard
(must be REQUEST_RECEIVED); when the record already carries a credential,
abstain from every external call and fall through to state ISSUED, save and
message emission; otherwise read offer and request payloads, fetch schema
and cred-def, and when the cred-def declares revocation resolve an active
registry record: on `StorageNotFoundError` query POSTED records, emit two
revocation-registry-needed notifications when none exist (reusing the most
recent prior size, `none` meaning the default size downstream), then sleep
2 seconds and recurse while retries remain, else fail with
no-active-revocation-registry; with an active registry, create the
credential, mark the registry FULL plus one notification when the returned
revocation id reaches capacity, and on the registry-full failure mark FULL
then sleep 1 second and recurse while retries remain, else propagate. -/
def issueAttempt (env : IssueEnv) (comment : Option String)
    (rec : CredExRecord) (retries : Nat)
    (recurse : Option (CredExRecord → Flow CredentialIssueMsg)) :
    Flow CredentialIssueMsg :=
  if rec.state ≠ some CredExState.requestReceived then
    ⟨rec, .error (.wrongState rec.credential_exchange_id rec.state
        .requestReceived), []⟩
  else
    match rec.credential with
    | some cred =>
      ⟨{ rec with state := some .issued },
       .ok { thread_id := rec.thread_id, comment := comment,
             credential := cred },
       [.saveRecord "issue credential"]⟩
    | none =>
      match rec.credential_offer, rec.credential_request,
          rec.credential_definition_id with
      | some _offer, some _req, some cdi =>
        if env.credDefRevocable cdi then
          match env.activeRevReg retries with
          | some areg =>
            let rec1 := { rec with revoc_reg_id := some areg.revoc_reg_id }
            match env.createCred retries with
            | .created cred rid =>
              let fullEffs :=
                if rid = some areg.max_cred_num then
                  [Eff.setRevRegFull areg.revoc_reg_id,
                   Eff.notifyRevRegEvent cdi (some areg.max_cred_num) true]
                else []
              ⟨{ rec1 with
                  revocation_id := rid,
                  credential := some cred,
                  state := some .issued },
               .ok { thread_id := rec.thread_id, comment := comment,
                     credential := cred },
               Eff.issuerCreateCredential rec.credential_exchange_id ::
                 (fullEffs ++ [.saveRecord "issue credential"])⟩
            | .registryFull =>
              match recurse with
              | some k =>
                let rest := k rec1
                ⟨rest.record, rest.result,
                 Eff.issuerCreateCredential rec.credential_exchange_id ::
                   Eff.setRevRegFull areg.revoc_reg_id ::
                   Eff.sleepSecs 1 :: rest.effs⟩
              | none =>
                ⟨rec1, .error .revocRegFull,
                 [Eff.issuerCreateCredential rec.credential_exchange_id,
                  Eff.setRevRegFull areg.revoc_reg_id]⟩
          | none =>
            let notifEffs :=
              if (env.postedRevRegs retries).isEmpty then
                let sz := (mostRecentRevReg (env.allRevRegs retries)).map
                  (fun r => r.max_cred_num)
                [Eff.notifyRevRegEvent cdi sz true,
                 Eff.notifyRevRegEvent cdi sz true]
              else []
            match recurse with
            | some k =>
              let rest := k rec
              ⟨rest.record, rest.result,
               notifEffs ++ Eff.sleepSecs 2 :: rest.effs⟩
            | none =>
              ⟨rec, .error (.noActiveRevocationRegistry cdi), notifEffs⟩
        else
          match env.createCred retries with
          | .created cred rid =>
            ⟨{ rec with
                revocation_id := rid,
                credential := some cred,
                state := some .issued },
             .ok { thread_id := rec.thread_id, comment := comment,
                   credential := cred },
             [Eff.issuerCreateCredential rec.credential_exchange_id,
              .saveRecord "issue credential"]⟩
          | .registryFull =>
            -- an issuer only reports a full registry when one was supplied
            ⟨rec, .error .revocRegFull,
             [Eff.issuerCreateCredential rec.credential_exchange_id]⟩
      | _, _, _ => ⟨rec, .error .missingField, []⟩

/-- Retry driver: the continuation is present exactly when retries remain,
and re-enters the next attempt with one retry fewer on the (possibly
mutated) record handed to it. -/
def issueCredentialRec (env : IssueEnv) (comment : Option String) :
    Nat → CredExRecord → Flow CredentialIssueMsg
  | 0, rec => issueAttempt env comment rec 0 none
  | Nat.succ n, rec =>
    issueAttempt env comment rec (n + 1)
      (some (issueCredentialRec env comment n))

/-- Entry point with the argument order of the source. -/
def issue_credential (env : IssueEnv) (comment : Option String)
    (rec : CredExRecord) (retries : Nat) : Flow CredentialIssueMsg :=
  issueCredentialRec env comment retries rec

/-! ## Holder side: store_credential -/

/-- The credential as read back from the holder wallet after storage:
the stored shape plus the derived revocation identifiers the engine
extracts (`rev_reg_id` inside the credential, `cred_rev_id`). -/
structure StoredCredInfo where
  credential : IndyCredential
  cred_rev_id : Option Nat
deriving DecidableEq, Repr

/-- Environment of `store_credential`: the holder storage call (which may
fail, `IndyHolderError`) mapping the optional caller-supplied credential id
override to the wallet-local id, and the readback of a stored credential.
Ledger reads and tails-file fetches have no effect the verified claims
observe and are not logged. -/
structure StoreEnv where
  holderStore : Option String → Except Unit String
  storedCred : String → StoredCredInfo

/-- Embeds `CredentialManager.store_credential`.  Source order: wrong-state guard
(must be CREDENTIAL_RECEIVED); read the raw credential (absent raw
credential is an attribute error, modelled as `missingField`); fetch
cred-def and, when the raw credential carries a registry id, the
revocation-registry definition and tails; store via the holder (a holder
failure is logged and re-raised); read the stored credential back; persist
credential id, stored credential and derived revocation identifiers. -/
def store_credential (env : StoreEnv) (rec : CredExRecord)
    (credential_id : Option String) : Flow Unit :=
  if rec.state ≠ some CredExState.credentialReceived then
    ⟨rec, .error (.wrongState rec.credential_exchange_id rec.state
        .credentialReceived), []⟩
  else
    match rec.raw_credential with
    | none => ⟨rec, .error .missingField, []⟩
    | some _raw =>
      match env.holderStore credential_id with
      | .error _ => ⟨rec, .error .holderStoreFailure, []⟩
      | .ok cid =>
        let info := env.storedCred cid
        ⟨{ rec with
            credential_id := some cid,
            credential := some info.credential,
            revoc_reg_id := info.credential.rev_reg_id,
            revocation_id := info.cred_rev_id },
         .ok (), [.holderStoreCredential cid,
                  .saveRecord "store credential"]⟩

/-! ## Problem report receipt -/

/-- Modelled from the spec: `ProblemReportReason.ISSUANCE_ABANDONED.value`
(the messages module lives outside the sources of this repository; the spec
fixes the default code as issuance-abandoned). -/
def issuanceAbandoned : String := "issuance-abandoned"

/-- Inbound `problem-report` message: thread id plus the optional `code`
and `en` entries of its description map. -/
structure ProblemReportMsgIn where
  thread_id : String
  code : Option String
  en : Option String
deriving DecidableEq, Repr

/-- The error message recorded on problem-report receipt: the Python
f-string interpolating the description code (defaulting to
issuance-abandoned) and the en text (defaulting to the code). -/
def problemReportErrorMsg (m : ProblemReportMsgIn) : String :=
  let code := m.code.getD issuanceAbandoned
  code ++ ": " ++ m.en.getD code

/-- Embeds `CredentialManager.receive_problem_report`: retrieve the record by
(connection, thread), clear the state to the abandoned null, set the error
message, save.  The record is never deleted here. -/
def receive_problem_report (store : List CredExRecord)
    (message : ProblemReportMsgIn) (connection_id : String) :
    Except CredMgrErr (CredExRecord × List Eff) :=
  match retrieve_by_connection_and_thread store connection_id
      message.thread_id with
  | .found r =>
    .ok ({ r with
            state := none,
            error_msg := some (problemReportErrorMsg message) },
         [.saveRecord "received problem report"])
  | .notFound => .error .storageNotFound
  | .duplicate => .error .storageDuplicate

/-! ## C1: receive_credential and the wrong-state claim -/

/-- Concrete inputs for the C1 counterexample: a record in state OFFER_SENT
and a credential-issue message with one attachment on its thread. -/
def c1cred : IndyCredential :=
  { cred_def_id := "cd-1", rev_reg_id := none, payload := "cred-payload" }

def c1rec : CredExRecord :=
  { credential_exchange_id := "cx-1", connection_id := some "conn-1",
    thread_id := some "th-1", state := some .offerSent }

def c1msg : CredentialIssueMsgIn :=
  { thread_id := "th-1", credentials_attach := [c1cred] }

/-- C1, counterexample: the claim is false on the code.  On a record whose
state is OFFER_SENT (not REQUEST_SENT), receive_credential does not fail
with a wrong-state error: it succeeds, attaches the credential and moves
the record to CREDENTIAL_RECEIVED. -/
theorem c1_counterexample :
    c1rec.state = some CredExState.offerSent ∧
    receive_credential [c1rec] c1msg "conn-1" =
      .ok ({ c1rec with
              raw_credential := some c1cred,
              state := some .credentialReceived },
           [.saveRecord "receive credential"]) := by
  exact ⟨rfl, by decide⟩

/-- C1, amended: receive_credential checks no state precondition.  For
every record found under (connection, thread) and every message with
exactly one credential attachment, it attaches the credential as
raw_credential and transitions the record to CREDENTIAL_RECEIVED whatever
the prior state was; when that state is REQUEST_SENT this is exactly the
transition the claim describes, but no other state makes it fail. -/
theorem c1_receive_credential_no_state_guard (store : List CredExRecord)
    (msg : CredentialIssueMsgIn) (conn : String) (r : CredExRecord)
    (raw : IndyCredential)
    (hatt : msg.credentials_attach = [raw])
    (hfind : retrieve_by_connection_and_thread store conn msg.thread_id =
      .found r) :
    receive_credential store msg conn =
      .ok ({ r with
              raw_credential := some raw,
              state := some .credentialReceived },
           [.saveRecord "receive credential"]) := by
  simp [receive_credential, hatt, hfind]

/-- Concrete inputs for the C1 witness: a record in state REQUEST_SENT. -/
def c1wcred : IndyCredential :=
  { cred_def_id := "cd-1w", rev_reg_id := none, payload := "cred-w" }

def c1wrec : CredExRecord :=
  { credential_exchange_id := "cx-1w", connection_id := some "conn-1w",
    thread_id := some "th-1w", state := some .requestSent }

def c1wmsg : CredentialIssueMsgIn :=
  { thread_id := "th-1w", credentials_attach := [c1wcred] }

/-- C1, witness: the amended theorem applied to a concrete REQUEST_SENT
record. -/
theorem c1_witness :
    receive_credential [c1wrec] c1wmsg "conn-1w" =
      .ok ({ c1wrec with
              raw_credential := some c1wcred,
              state := some .credentialReceived },
           [.saveRecord "receive credential"]) :=
  c1_receive_credential_no_state_guard [c1wrec] c1wmsg "conn-1w" c1wrec
    c1wcred rfl (by decide)

/-! ## C2: wrong-state guards of create_request, issue_credential,
store_credential -/

/-- C2: invoked outside their legal source state, create_request (expects
OFFER_RECEIVED), issue_credential (expects REQUEST_RECEIVED) and
store_credential (expects CREDENTIAL_RECEIVED) each fail with the
wrong-state error carrying the exchange id, the observed state and the
expected state, return the record unchanged (in particular its state), and
perform no external effect. -/
theorem c2_wrong_state_guards (reqEnv : RequestEnv) (issEnv : IssueEnv)
    (stoEnv : StoreEnv) (r1 r2 r3 : CredExRecord) (hd : String)
    (comment : Option String) (retries : Nat) (cid : Option String)
    (h1 : r1.state ≠ some CredExState.offerReceived)
    (h2 : r2.state ≠ some CredExState.requestReceived)
    (h3 : r3.state ≠ some CredExState.credentialReceived) :
    create_request reqEnv r1 hd =
      ⟨r1, .error (.wrongState r1.credential_exchange_id r1.state
          .offerReceived), []⟩ ∧
    issue_credential issEnv comment r2 retries =
      ⟨r2, .error (.wrongState r2.credential_exchange_id r2.state
          .requestReceived), []⟩ ∧
    store_credential stoEnv r3 cid =
      ⟨r3, .error (.wrongState r3.credential_exchange_id r3.state
          .credentialReceived), []⟩ := by
  refine ⟨?_, ?_, ?_⟩
  · simp [create_request, h1]
  · cases retries <;>
      simp [issue_credential, issueCredentialRec, issueAttempt, h2]
  · simp [store_credential, h3]

/-- Concrete environments and records for the C2 witness. -/
def c2reqEnv : RequestEnv :=
  { holderCreateRequest := fun _ _ => (⟨"rq"⟩, "md"), cacheEntry := none }

def c2issEnv : IssueEnv :=
  { credDefRevocable := fun _ => false, activeRevReg := fun _ => none,
    postedRevRegs := fun _ => [], allRevRegs := fun _ => [],
    createCred := fun _ => .registryFull }

def c2stoEnv : StoreEnv :=
  { holderStore := fun _ => .ok "cid",
    storedCred := fun _ => ⟨⟨"cd", none, "p"⟩, none⟩ }

def c2rec1 : CredExRecord :=
  { credential_exchange_id := "cx-2a", state := some .proposalSent }

def c2rec2 : CredExRecord :=
  { credential_exchange_id := "cx-2b", state := some .offerSent }

def c2rec3 : CredExRecord :=
  { credential_exchange_id := "cx-2c", state := none }

/-- C2, witness: the three guards observed on concrete records in illegal
states. -/
theorem c2_witness :
    create_request c2reqEnv c2rec1 "did:ex:h" =
      ⟨c2rec1, .error (.wrongState "cx-2a" (some .proposalSent)
          .offerReceived), []⟩ ∧
    issue_credential c2issEnv none c2rec2 5 =
      ⟨c2rec2, .error (.wrongState "cx-2b" (some .offerSent)
          .requestReceived), []⟩ ∧
    store_credential c2stoEnv c2rec3 none =
      ⟨c2rec3, .error (.wrongState "cx-2c" none
          .credentialReceived), []⟩ :=
  c2_wrong_state_guards c2reqEnv c2issEnv c2stoEnv c2rec1 c2rec2 c2rec3
    "did:ex:h" none 5 none (by decide) (by decide) (by decide)

/-! ## C3: re-entrant create_request and issue_credential -/

/-- C3: on a record that already carries a request (create_request) or a
credential (issue_credential), re-invocation performs no holder or issuer
cryptographic call — the effect trace holds only the record save — yet
still wraps the stored payload in the outbound message and advances the
state to REQUEST_SENT or ISSUED.  Consequently a second call re-entering at
the entry state after a first call stored its generated request produces
the same outbound message content with no cryptographic side-effect. -/
theorem c3_idempotent_replay (reqEnv : RequestEnv) (issEnv : IssueEnv)
    (rec recI rec0 : CredExRecord) (hd : String) (comment : Option String)
    (retries : Nat) (offer : IndyOffer) (req : IndyCredRequest)
    (cred : IndyCredential) (offer0 : IndyOffer) (cdi0 : String)
    (hs : rec.state = some CredExState.offerReceived)
    (hoff : rec.credential_offer = some offer)
    (hreq : rec.credential_request = some req)
    (hsI : recI.state = some CredExState.requestReceived)
    (hcred : recI.credential = some cred)
    (hs0 : rec0.state = some CredExState.offerReceived)
    (hoff0 : rec0.credential_offer = some offer0)
    (hreq0 : rec0.credential_request = none)
    (hcdi0 : rec0.credential_definition_id = some cdi0) :
    create_request reqEnv rec hd =
      ⟨{ rec with state := some .requestSent },
       .ok { thread_id := rec.thread_id, request := req },
       [.saveRecord "create credential request"]⟩ ∧
    issue_credential issEnv comment recI retries =
      ⟨{ recI with state := some .issued },
       .ok { thread_id := recI.thread_id, comment := comment,
             credential := cred },
       [.saveRecord "issue credential"]⟩ ∧
    (create_request reqEnv
        { (create_request reqEnv rec0 hd).record with
          state := some .offerReceived } hd).result =
      (create_request reqEnv rec0 hd).result ∧
    (create_request reqEnv
        { (create_request reqEnv rec0 hd).record with
          state := some .offerReceived } hd).effs =
      [.saveRecord "create credential request"] := by
  refine ⟨?_, ?_, ?_, ?_⟩
  · simp [create_request, hs, hoff, hreq]
  · cases retries <;>
      simp [issue_credential, issueCredentialRec, issueAttempt, hsI, hcred]
  · rcases reqEnv with ⟨hcr, ce⟩
    rcases ce with _ | (_ | c) <;>
      simp [create_request, hs0, hoff0, hreq0, hcdi0]
  · rcases reqEnv with ⟨hcr, ce⟩
    rcases ce with _ | (_ | c) <;>
      simp [create_request, hs0, hoff0, hreq0, hcdi0]

/-- Concrete environment and records for the C3 witness. -/
def c3env : RequestEnv :=
  { holderCreateRequest := fun off hdid => (⟨off.nonce ++ ":" ++ hdid⟩, "meta"),
    cacheEntry := none }

def c3issEnvW : IssueEnv :=
  { credDefRevocable := fun _ => false, activeRevReg := fun _ => none,
    postedRevRegs := fun _ => [], allRevRegs := fun _ => [],
    createCred := fun _ => .registryFull }

def c3offer : IndyOffer :=
  { schema_id := "S:1", cred_def_id := "CD:1", nonce := "n1", rest := "kcp" }

def c3req : IndyCredRequest := ⟨"req1"⟩

def c3cred : IndyCredential :=
  { cred_def_id := "CD:1", rev_reg_id := none, payload := "c" }

def c3rec : CredExRecord :=
  { credential_exchange_id := "cx-3a", thread_id := some "t3",
    state := some .offerReceived, credential_offer := some c3offer,
    credential_request := some c3req }

def c3recI : CredExRecord :=
  { credential_exchange_id := "cx-3b", thread_id := some "t3b",
    state := some .requestReceived, credential := some c3cred }

def c3rec0 : CredExRecord :=
  { credential_exchange_id := "cx-3c", thread_id := some "t3c",
    state := some .offerReceived, credential_offer := some c3offer,
    credential_definition_id := some "CD:1" }

/-- C3, witness: the re-entrancy theorem applied to concrete records. -/
theorem c3_witness :
    create_request c3env c3rec "did:ex:h" =
      ⟨{ c3rec with state := some .requestSent },
       .ok { thread_id := c3rec.thread_id, request := c3req },
       [.saveRecord "create credential request"]⟩ ∧
    issue_credential c3issEnvW none c3recI 5 =
      ⟨{ c3recI with state := some .issued },
       .ok { thread_id := c3recI.thread_id, comment := none,
             credential := c3cred },
       [.saveRecord "issue credential"]⟩ ∧
    (create_request c3env
        { (create_request c3env c3rec0 "did:ex:h").record with
          state := some .offerReceived } "did:ex:h").result =
      (create_request c3env c3rec0 "did:ex:h").result ∧
    (create_request c3env
        { (create_request c3env c3rec0 "did:ex:h").record with
          state := some .offerReceived } "did:ex:h").effs =
      [.saveRecord "create credential request"] :=
  c3_idempotent_replay c3env c3issEnvW c3rec c3recI c3rec0 "did:ex:h" none 5
    c3offer c3req c3cred c3offer "CD:1" rfl rfl rfl rfl rfl rfl rfl rfl rfl

/-! ## C4: issuance with no active and no posted revocation registry -/

/-- The fold underlying `mostRecentRevReg` returns an element of the list
with maximal creation stamp. -/
theorem foldl_pickMoreRecent_spec (xs : List RevRegRec) (x : RevRegRec) :
    xs.foldl pickMoreRecent x ∈ x :: xs ∧
    ∀ s ∈ x :: xs, s.created_at ≤ (xs.foldl pickMoreRecent x).created_at := by
  induction xs generalizing x with
  | nil =>
    refine ⟨List.mem_cons_self _ _, ?_⟩
    intro s hs
    rw [List.mem_singleton.mp hs, List.foldl_nil]
  | cons y ys ih =>
    have h := ih (pickMoreRecent x y)
    have hpick : pickMoreRecent x y = x ∨ pickMoreRecent x y = y := by
      unfold pickMoreRecent
      split
      · exact Or.inr rfl
      · exact Or.inl rfl
    have hx : x.created_at ≤ (pickMoreRecent x y).created_at := by
      unfold pickMoreRecent
      split
      · omega
      · exact le_refl _
    have hy : y.created_at ≤ (pickMoreRecent x y).created_at := by
      unfold pickMoreRecent
      split
      · exact le_refl _
      · omega
    constructor
    · rw [List.foldl_cons]
      rcases List.mem_cons.mp h.1 with hm | hm
      · rcases hpick with hp | hp
        · rw [hm, hp]
          exact List.mem_cons_self _ _
        · rw [hm, hp]
          exact List.mem_cons_of_mem _ (List.mem_cons_self _ _)
      · exact List.mem_cons_of_mem _ (List.mem_cons_of_mem _ hm)
    · intro s hs
      rw [List.foldl_cons]
      have hbase := h.2 (pickMoreRecent x y) (List.mem_cons_self _ _)
      rcases List.mem_cons.mp hs with hsx | hs'
      · rw [hsx]
        exact le_trans hx hbase
      · rcases List.mem_cons.mp hs' with hsy | hs''
        · rw [hsy]
          exact le_trans hy hbase
        · exact h.2 s (List.mem_cons_of_mem _ hs'')

/-- The size carried by the registry-needed notifications at a given
attempt: the capacity of the most-recently-created existing registry record
(`none` means the default size applied downstream). -/
def noRegNotifSize (env : IssueEnv) (k : Nat) : Option Nat :=
  (mostRecentRevReg (env.allRevRegs k)).map (fun r => r.max_cred_num)

/-- Expected effect trace of `issue_credential` when no active and no
posted registry ever appears: at each attempt two registry-needed
notifications, then a 2-second sleep before every recursion. -/
def noRegTrace (env : IssueEnv) (cdi : String) : Nat → List Eff
  | 0 => [.notifyRevRegEvent cdi (noRegNotifSize env 0) true,
          .notifyRevRegEvent cdi (noRegNotifSize env 0) true]
  | Nat.succ n =>
    .notifyRevRegEvent cdi (noRegNotifSize env (n + 1)) true ::
    .notifyRevRegEvent cdi (noRegNotifSize env (n + 1)) true ::
    .sleepSecs 2 :: noRegTrace env cdi n

/-- C4: on a revocable cred-def in an environment where no active and no
posted registry record ever appears, issue_credential emits exactly two
registry-needed notifications per attempt with auto_create_rev_reg true,
carrying the capacity of the most-recently-created existing registry record
(`none`, the default size, when no record exists); whenever retries remain
it sleeps 2 seconds and recurses with one retry fewer; with retries
exhausted it fails with the no-active-revocation-registry error, the record
unchanged in state REQUEST_RECEIVED.  The final conjuncts pin down the
most-recently-created reading of the reused size. -/
theorem c4_no_active_registry (env : IssueEnv) (rec : CredExRecord)
    (comment : Option String) (retries : Nat) (offer : IndyOffer)
    (req : IndyCredRequest) (cdi : String)
    (hs : rec.state = some CredExState.requestReceived)
    (hcred : rec.credential = none)
    (hoff : rec.credential_offer = some offer)
    (hreq : rec.credential_request = some req)
    (hcdi : rec.credential_definition_id = some cdi)
    (hrev : env.credDefRevocable cdi = true)
    (hact : ∀ k, env.activeRevReg k = none)
    (hpost : ∀ k, env.postedRevRegs k = []) :
    issue_credential env comment rec retries =
      ⟨rec, .error (.noActiveRevocationRegistry cdi),
       noRegTrace env cdi retries⟩ ∧
    (∀ l r, mostRecentRevReg l = some r →
      r ∈ l ∧ ∀ s ∈ l, s.created_at ≤ r.created_at) ∧
    mostRecentRevReg [] = none := by
  refine ⟨?_, ?_, rfl⟩
  · induction retries with
    | zero =>
      simp [issue_credential, issueCredentialRec, issueAttempt, hs, hcred,
        hoff, hreq, hcdi, hrev, hact 0, hpost 0, noRegTrace, noRegNotifSize]
    | succ n ih =>
      simp only [issue_credential] at ih ⊢
      rw [issueCredentialRec]
      simp [issueAttempt, hs, hcred, hoff, hreq, hcdi, hrev, hact (n + 1),
        hpost (n + 1), ih, noRegTrace, noRegNotifSize]
  · intro l r h
    match l, h with
    | x :: xs, h =>
      have hspec := foldl_pickMoreRecent_spec xs x
      have hr : xs.foldl pickMoreRecent x = r := by
        simpa [mostRecentRevReg] using h
      rw [hr] at hspec
      exact hspec

/-- Concrete environment and record for the C4 witness: two prior registry
records exist (created at stamps 1 and 5, capacities 32 and 64), none ever
posted or active, two retries. -/
def c4regA : RevRegRec :=
  { revoc_reg_id := "RR:4a", max_cred_num := 32, created_at := 1 }

def c4regB : RevRegRec :=
  { revoc_reg_id := "RR:4b", max_cred_num := 64, created_at := 5 }

def c4env : IssueEnv :=
  { credDefRevocable := fun _ => true, activeRevReg := fun _ => none,
    postedRevRegs := fun _ => [], allRevRegs := fun _ => [c4regA, c4regB],
    createCred := fun _ => .registryFull }

def c4offer : IndyOffer :=
  { schema_id := "S:4", cred_def_id := "CD:4", nonce := "n4", rest := "kcp" }

def c4rec : CredExRecord :=
  { credential_exchange_id := "cx-4", thread_id := some "t4",
    state := some .requestReceived, credential_offer := some c4offer,
    credential_request := some ⟨"req4"⟩, schema_id := some "S:4",
    credential_definition_id := some "CD:4" }

/-- C4, witness: with two retries the flow emits the two notifications
(size 64, the capacity of the most recent prior record) three times,
sleeping 2 seconds between attempts, and fails. -/
theorem c4_witness :
    issue_credential c4env none c4rec 2 =
      ⟨c4rec, .error (.noActiveRevocationRegistry "CD:4"),
       [.notifyRevRegEvent "CD:4" (some 64) true,
        .notifyRevRegEvent "CD:4" (some 64) true, .sleepSecs 2,
        .notifyRevRegEvent "CD:4" (some 64) true,
        .notifyRevRegEvent "CD:4" (some 64) true, .sleepSecs 2,
        .notifyRevRegEvent "CD:4" (some 64) true,
        .notifyRevRegEvent "CD:4" (some 64) true]⟩ :=
  (c4_no_active_registry c4env c4rec none 2 c4offer ⟨"req4"⟩ "CD:4" rfl rfl
    rfl rfl rfl rfl (fun _ => rfl) (fun _ => rfl)).1

/-! ## C5: marking the registry FULL when capacity is reached -/

/-- C5: on a successful revocable issuance from an active registry, when
the revocation id returned by the issuer equals the registry capacity the
flow sets the registry record FULL and emits exactly one registry-needed
notification of the same size, both inside the flow (hence before it
returns); when the revocation id differs from the capacity neither effect
occurs.  The first conjunct gives the whole behavior; the two count
conjuncts restate exactly-one and none. -/
theorem c5_full_registry_rotation (env : IssueEnv) (rec : CredExRecord)
    (comment : Option String) (retries : Nat) (offer : IndyOffer)
    (req : IndyCredRequest) (cdi : String) (areg : RevRegRec)
    (cred : IndyCredential) (rid : Nat)
    (hs : rec.state = some CredExState.requestReceived)
    (hcred : rec.credential = none)
    (hoff : rec.credential_offer = some offer)
    (hreq : rec.credential_request = some req)
    (hcdi : rec.credential_definition_id = some cdi)
    (hrev : env.credDefRevocable cdi = true)
    (hact : env.activeRevReg retries = some areg)
    (hcc : env.createCred retries = .created cred (some rid)) :
    issue_credential env comment rec retries =
      ⟨{ rec with
          revoc_reg_id := some areg.revoc_reg_id,
          revocation_id := some rid,
          credential := some cred,
          state := some .issued },
       .ok { thread_id := rec.thread_id, comment := comment,
             credential := cred },
       .issuerCreateCredential rec.credential_exchange_id ::
         ((if rid = areg.max_cred_num then
             [.setRevRegFull areg.revoc_reg_id,
              .notifyRevRegEvent cdi (some areg.max_cred_num) true]
           else []) ++ [.saveRecord "issue credential"])⟩ ∧
    (rid = areg.max_cred_num →
      (issue_credential env comment rec retries).effs.count
          (.setRevRegFull areg.revoc_reg_id) = 1 ∧
      (issue_credential env comment rec retries).effs.count
          (.notifyRevRegEvent cdi (some areg.max_cred_num) true) = 1) ∧
    (rid ≠ areg.max_cred_num →
      (issue_credential env comment rec retries).effs.count
          (.setRevRegFull areg.revoc_reg_id) = 0 ∧
      (issue_credential env comment rec retries).effs.count
          (.notifyRevRegEvent cdi (some areg.max_cred_num) true) = 0) := by
  have hmain : issue_credential env comment rec retries =
      ⟨{ rec with
          revoc_reg_id := some areg.revoc_reg_id,
          revocation_id := some rid,
          credential := some cred,
          state := some .issued },
       .ok { thread_id := rec.thread_id, comment := comment,
             credential := cred },
       .issuerCreateCredential rec.credential_exchange_id ::
         ((if rid = areg.max_cred_num then
             [.setRevRegFull areg.revoc_reg_id,
              .notifyRevRegEvent cdi (some areg.max_cred_num) true]
           else []) ++ [.saveRecord "issue credential"])⟩ := by
    cases retries <;>
      simp [issue_credential, issueCredentialRec, issueAttempt, hs, hcred,
        hoff, hreq, hcdi, hrev, hact, hcc]
  refine ⟨hmain, ?_, ?_⟩
  · intro hr
    rw [hmain]
    simp [hr, List.count_cons, beq_iff_eq]
  · intro hr
    rw [hmain]
    simp [hr, List.count_cons, beq_iff_eq]

/-- Concrete environment and record for the C5 witness: capacity 10,
revocation id 10. -/
def c5areg : RevRegRec :=
  { revoc_reg_id := "RR:5", max_cred_num := 10, created_at := 3 }

def c5cred : IndyCredential :=
  { cred_def_id := "CD:5", rev_reg_id := some "RR:5", payload := "c5" }

def c5env : IssueEnv :=
  { credDefRevocable := fun _ => true, activeRevReg := fun _ => some c5areg,
    postedRevRegs := fun _ => [], allRevRegs := fun _ => [c5areg],
    createCred := fun _ => .created c5cred (some 10) }

def c5offer : IndyOffer :=
  { schema_id := "S:5", cred_def_id := "CD:5", nonce := "n5", rest := "kcp" }

def c5rec : CredExRecord :=
  { credential_exchange_id := "cx-5", thread_id := some "t5",
    state := some .requestReceived, credential_offer := some c5offer,
    credential_request := some ⟨"req5"⟩, schema_id := some "S:5",
    credential_definition_id := some "CD:5" }

/-- C5, witness: issuing the last slot (revocation id 10 of capacity 10)
marks the registry FULL and emits one size-10 notification before the save
and the return. -/
theorem c5_witness :
    issue_credential c5env none c5rec 5 =
      ⟨{ c5rec with
          revoc_reg_id := some "RR:5",
          revocation_id := some 10,
          credential := some c5cred,
          state := some .issued },
       .ok { thread_id := c5rec.thread_id, comment := none,
             credential := c5cred },
       .issuerCreateCredential "cx-5" ::
         ((if 10 = c5areg.max_cred_num then
             [.setRevRegFull "RR:5",
              .notifyRevRegEvent "CD:5" (some c5areg.max_cred_num) true]
           else []) ++ [.saveRecord "issue credential"])⟩ :=
  (c5_full_registry_rotation c5env c5rec none 5 c5offer ⟨"req5"⟩ "CD:5"
    c5areg c5cred 10 rfl rfl rfl rfl rfl rfl rfl rfl).1

/-! ## C6: credential-definition selection in create_offer -/

/-- Lemma: `maxEpoch` returns an element of its candidate list with maximal epoch
(the first such, as Python max does). -/
theorem maxEpoch_spec (l : List CredDefSentRecord) (best : CredDefSentRecord) :
    maxEpoch best l ∈ best :: l ∧
    ∀ s ∈ best :: l, s.epoch ≤ (maxEpoch best l).epoch := by
  induction l generalizing best with
  | nil =>
    refine ⟨List.mem_cons_self _ _, ?_⟩
    intro s hs
    rw [List.mem_singleton.mp hs]
    exact le_refl _
  | cons y ys ih =>
    have hstep : maxEpoch best (y :: ys) =
        maxEpoch (if y.epoch > best.epoch then y else best) ys := rfl
    set b := if y.epoch > best.epoch then y else best with hb
    have h := ih b
    have hbmem : b = best ∨ b = y := by
      rw [hb]
      split
      · exact Or.inr rfl
      · exact Or.inl rfl
    have hbest : best.epoch ≤ b.epoch := by
      rw [hb]
      split
      · omega
      · exact le_refl _
    have hy : y.epoch ≤ b.epoch := by
      rw [hb]
      split
      · exact le_refl _
      · omega
    constructor
    · rw [hstep]
      rcases List.mem_cons.mp h.1 with hm | hm
      · rcases hbmem with hp | hp
        · rw [hm, hp]
          exact List.mem_cons_self _ _
        · rw [hm, hp]
          exact List.mem_cons_of_mem _ (List.mem_cons_self _ _)
      · exact List.mem_cons_of_mem _ (List.mem_cons_of_mem _ hm)
    · intro s hs
      rw [hstep]
      have hbase := h.2 b (List.mem_cons_self _ _)
      rcases List.mem_cons.mp hs with h1 | hs'
      · rw [h1]
        exact le_trans hbest hbase
      · rcases List.mem_cons.mp hs' with h2 | hs''
        · rw [h2]
          exact le_trans hy hbase
        · exact h.2 s (List.mem_cons_of_mem _ hs'')

/-- A record matching a proposal whose cred_def_id selector is present
carries exactly that cred def id. -/
theorem matchesProposal_cred_def_id (p : CredentialProposalMsg)
    (r : CredDefSentRecord) (c : String)
    (hm : matchesProposal p r = true) (hc : p.cred_def_id = some c) :
    r.cred_def_id = c := by
  unfold matchesProposal at hm
  rw [hc] at hm
  simp only [Bool.and_eq_true, Option.all, beq_iff_eq] at hm
  exact hm.2.symm

/-- Concrete inputs for the C6 counterexample: a proposal carrying an
explicit cred_def_id, while the issuer has posted no cred-def record at
all. -/
def c6proposal : CredentialProposalMsg :=
  { comment := none, preview := some ["name", "date"], schema_id := none,
    schema_issuer_did := none, schema_name := none, schema_version := none,
    cred_def_id := some "X:3:CL:42:tag", issuer_did := none }

def c6rec : CredExRecord :=
  { credential_exchange_id := "cx-6", thread_id := some "t6",
    state := some .proposalReceived,
    credential_proposal_dict := some c6proposal }

def c6env : OfferEnv :=
  { sentCredDefs := [], credDefId2SchemaId := fun _ => "S:6",
    schemaOf := fun _ => { attrNames := ["name", "date"] },
    issuerOffer := fun c =>
      { schema_id := "S:6", cred_def_id := c, nonce := "n6", rest := "kcp" },
    cacheEntry := none }

/-- C6, counterexample: the claim is false on the code.  The proposal
carries an explicit cred_def_id, which per the claim is used directly; the
code instead feeds it into the posted-cred-def tag query, and with no
matching sent record create_offer fails with the no-usable-cred-def error
rather than offering on the explicit id. -/
theorem c6_counterexample :
    c6proposal.cred_def_id = some "X:3:CL:42:tag" ∧
    create_offer c6env c6rec none none "m6" =
      ⟨c6rec, .error .noUsableCredDef, []⟩ :=
  ⟨rfl, rfl⟩

/-- C6, amended: create_offer always selects the credential definition by
the posted-cred-def lookup — the present proposal selectors form the tag
filter and the matching record with the largest integer epoch supplies the
cred_def_id, so an explicit cred_def_id selector, when any record matches,
is the id chosen; for every filter with no matching record, including one
carrying an explicit cred_def_id the issuer never posted, create_offer
fails with the no-usable-cred-def error and the record (hence its state) is
unchanged. -/
theorem c6_cred_def_selection (env : OfferEnv) (rec : CredExRecord)
    (p : CredentialProposalMsg) (comment : Option String) (msgId : String)
    (hp : rec.credential_proposal_dict = some p) :
    (env.sentCredDefs.filter (matchesProposal p) = [] →
      create_offer env rec none comment msgId =
        ⟨rec, .error .noUsableCredDef, []⟩) ∧
    (∀ c, match_sent_cred_def_id env.sentCredDefs p = .ok c →
      ∃ r, r ∈ env.sentCredDefs.filter (matchesProposal p) ∧
        r.cred_def_id = c ∧
        ∀ s ∈ env.sentCredDefs.filter (matchesProposal p),
          s.epoch ≤ r.epoch) ∧
    (∀ cd c, p.cred_def_id = some cd →
      match_sent_cred_def_id env.sentCredDefs p = .ok c → c = cd) := by
  have hb : ∀ c, match_sent_cred_def_id env.sentCredDefs p = .ok c →
      ∃ r, r ∈ env.sentCredDefs.filter (matchesProposal p) ∧
        r.cred_def_id = c ∧
        ∀ s ∈ env.sentCredDefs.filter (matchesProposal p),
          s.epoch ≤ r.epoch := by
    intro c hc
    unfold match_sent_cred_def_id at hc
    cases hfl : env.sentCredDefs.filter (matchesProposal p) with
    | nil => rw [hfl] at hc; exact absurd hc (by simp)
    | cons r rs =>
      rw [hfl] at hc
      have hspec := maxEpoch_spec rs r
      refine ⟨maxEpoch r rs, ?_, ?_, ?_⟩
      · exact hspec.1
      · simpa using hc
      · intro s hsm
        exact hspec.2 s hsm
  refine ⟨?_, hb, ?_⟩
  · intro hflt
    simp [create_offer, hp, match_sent_cred_def_id, hflt]
  · intro cd c hcd hc
    obtain ⟨r, hmem, hrc, _⟩ := hb c hc
    have hmm := List.of_mem_filter hmem
    rw [← hrc]
    exact (matchesProposal_cred_def_id p r cd hmm hcd) ▸ rfl

/-- Concrete inputs for the C6 witness: two posted cred-def records match
the proposal (epochs 3 and 7); the selection picks the epoch-7 record. -/
def c6wrecA : CredDefSentRecord :=
  { schema_id := "S:6w", schema_issuer_did := "did:sov:I",
    schema_name := "ident", schema_version := "1.0",
    issuer_did := "did:sov:I", cred_def_id := "CD:6a", epoch := 3 }

def c6wrecB : CredDefSentRecord :=
  { schema_id := "S:6w", schema_issuer_did := "did:sov:I",
    schema_name := "ident", schema_version := "1.0",
    issuer_did := "did:sov:I", cred_def_id := "CD:6b", epoch := 7 }

def c6wp : CredentialProposalMsg :=
  { comment := none, preview := some ["name"], schema_id := none,
    schema_issuer_did := none, schema_name := some "ident",
    schema_version := none, cred_def_id := none, issuer_did := none }

def c6wenv : OfferEnv :=
  { sentCredDefs := [c6wrecA, c6wrecB],
    credDefId2SchemaId := fun _ => "S:6w",
    schemaOf := fun _ => { attrNames := ["name"] },
    issuerOffer := fun c =>
      { schema_id := "S:6w", cred_def_id := c, nonce := "n6w",
        rest := "kcp" },
    cacheEntry := none }

def c6wrec : CredExRecord :=
  { credential_exchange_id := "cx-6w", thread_id := some "t6w",
    state := some .proposalReceived,
    credential_proposal_dict := some c6wp }

/-- C6, witness: the amended selection applied to the concrete store; the
epoch-7 record is the one chosen. -/
theorem c6_witness :
    c6wrec.credential_proposal_dict = some c6wp ∧
    match_sent_cred_def_id c6wenv.sentCredDefs c6wp = .ok "CD:6b" ∧
    (∃ r, r ∈ c6wenv.sentCredDefs.filter (matchesProposal c6wp) ∧
      r.cred_def_id = "CD:6b" ∧
      ∀ s ∈ c6wenv.sentCredDefs.filter (matchesProposal c6wp),
        s.epoch ≤ r.epoch) :=
  ⟨rfl, rfl,
   (c6_cred_def_selection c6wenv c6wrec c6wp none "m6w" rfl).2.1
     "CD:6b" rfl⟩

/-! ## C7: preview attributes against schema attributes -/

/-- Lemma: `sameSet` is set equality of the two attribute-name lists. -/
theorem sameSet_iff (a b : List String) :
    sameSet a b = true ↔ (∀ x, x ∈ a ↔ x ∈ b) := by
  unfold sameSet
  rw [Bool.and_eq_true, List.all_eq_true, List.all_eq_true]
  constructor
  · intro h x
    constructor
    · intro hx
      simpa using h.1 x hx
    · intro hx
      simpa using h.2 x hx
  · intro h
    constructor
    · intro x hx
      simpa using (h x).mp hx
    · intro x hx
      simpa using (h x).mpr hx

/-- C7: with the cred-def selection succeeding and a preview present,
create_offer fails with the preview-mismatch error naming both attribute
sets — the record, hence its state, unchanged — whenever the preview
attribute names are not set-equal to the schema attrNames; and whenever
create_offer succeeds the two attribute-name sets are equal. -/
theorem c7_preview_schema_match (env : OfferEnv) (rec : CredExRecord)
    (counter : Option CredentialProposalMsg) (comment : Option String)
    (msgId : String) (p : CredentialProposalMsg) (attrs : List String)
    (cdi : String)
    (hprop : (match counter with
      | some q => some q
      | none => rec.credential_proposal_dict) = some p)
    (hmatch : match_sent_cred_def_id env.sentCredDefs p = .ok cdi)
    (hprev : p.preview = some attrs) :
    (sameSet attrs
        (env.schemaOf (env.credDefId2SchemaId cdi)).attrNames = false →
      create_offer env rec counter comment msgId =
        ⟨rec, .error (.previewMismatch attrs
            (env.schemaOf (env.credDefId2SchemaId cdi)).attrNames), []⟩) ∧
    (∀ out msg effs,
      create_offer env rec counter comment msgId = ⟨out, .ok msg, effs⟩ →
      ∀ x, x ∈ attrs ↔
        x ∈ (env.schemaOf (env.credDefId2SchemaId cdi)).attrNames) := by
  constructor
  · intro hss
    cases counter with
    | some q =>
      have hqp : q = p := by simpa using hprop
      subst hqp
      simp [create_offer, hmatch, hprev, hss]
    | none =>
      simp only [] at hprop
      simp [create_offer, hprop, hmatch, hprev, hss]
  · intro out msg effs heq x
    by_cases hss : sameSet attrs
        (env.schemaOf (env.credDefId2SchemaId cdi)).attrNames = true
    · exact (sameSet_iff _ _).mp hss x
    · exfalso
      have hss' : sameSet attrs
          (env.schemaOf (env.credDefId2SchemaId cdi)).attrNames = false := by
        revert hss
        cases sameSet attrs
          (env.schemaOf (env.credDefId2SchemaId cdi)).attrNames <;> simp
      cases counter with
      | some q =>
        have hqp : q = p := by simpa using hprop
        subst hqp
        simp [create_offer, hmatch, hprev, hss'] at heq
      | none =>
        simp only [] at hprop
        simp [create_offer, hprop, hmatch, hprev, hss'] at heq

/-- Concrete inputs for the C7 witness: schema attributes name, date, id
against preview attributes name, date. -/
def c7sent : CredDefSentRecord :=
  { schema_id := "S:7", schema_issuer_did := "did:sov:I7",
    schema_name := "ident7", schema_version := "1.0",
    issuer_did := "did:sov:I7", cred_def_id := "CD:7", epoch := 1 }

def c7p : CredentialProposalMsg :=
  { comment := none, preview := some ["name", "date"], schema_id := none,
    schema_issuer_did := none, schema_name := none, schema_version := none,
    cred_def_id := some "CD:7", issuer_did := none }

def c7env : OfferEnv :=
  { sentCredDefs := [c7sent], credDefId2SchemaId := fun _ => "S:7",
    schemaOf := fun _ => { attrNames := ["name", "date", "id"] },
    issuerOffer := fun c =>
      { schema_id := "S:7", cred_def_id := c, nonce := "n7", rest := "kcp" },
    cacheEntry := none }

def c7rec : CredExRecord :=
  { credential_exchange_id := "cx-7", thread_id := some "t7",
    state := some .proposalReceived, credential_proposal_dict := some c7p }

/-- C7, witness: the mismatch case of the claim evaluated on the literal
example of the spec. -/
theorem c7_witness :
    create_offer c7env c7rec none none "m7" =
      ⟨c7rec, .error (.previewMismatch ["name", "date"]
          ["name", "date", "id"]), []⟩ :=
  (c7_preview_schema_match c7env c7rec none none "m7" c7p ["name", "date"]
    "CD:7" rfl rfl rfl).1 rfl

/-! ## C8: problem-report receipt -/

/-- C8: whatever the prior state of the record found by (connection,
thread), receive_problem_report clears its state to the abandoned null,
sets error_msg to the code (defaulting to issuance-abandoned when the
description carries none) joined to the en text by a colon, and its whole
effect trace is the single record save — so the record is persisted and
never deleted.  The error message is never empty. -/
theorem c8_problem_report (store : List CredExRecord)
    (msg : ProblemReportMsgIn) (conn : String) (r : CredExRecord)
    (hfind : retrieve_by_connection_and_thread store conn msg.thread_id =
      .found r) :
    receive_problem_report store msg conn =
      .ok ({ r with
              state := none,
              error_msg := some (problemReportErrorMsg msg) },
           [.saveRecord "received problem report"]) ∧
    (∀ t, msg.en = some t →
      problemReportErrorMsg msg =
        (msg.code.getD issuanceAbandoned) ++ ": " ++ t) ∧
    (msg.code = none →
      problemReportErrorMsg msg =
        issuanceAbandoned ++ ": " ++ msg.en.getD issuanceAbandoned) ∧
    problemReportErrorMsg msg ≠ "" := by
  refine ⟨?_, ?_, ?_, ?_⟩
  · simp [receive_problem_report, hfind]
  · intro t ht
    simp [problemReportErrorMsg, ht]
  · intro hc
    simp [problemReportErrorMsg, hc]
  · unfold problemReportErrorMsg
    intro h
    have hlen := congrArg String.length h
    simp [String.length_append] at hlen
    exact absurd hlen.1.2 (by decide)

/-- Concrete inputs for the C8 witness: the literal scenario of the spec,
a problem report with code abandoned-consent and text on an OFFER_RECEIVED
record. -/
def c8rec : CredExRecord :=
  { credential_exchange_id := "cx-8", connection_id := some "conn-8",
    thread_id := some "t8", state := some .offerReceived }

def c8msg : ProblemReportMsgIn :=
  { thread_id := "t8", code := some "abandoned-consent",
    en := some "user declined" }

/-- C8, witness: the record ends with null state and the error message
joining code and text, retained with a single save. -/
theorem c8_witness :
    receive_problem_report [c8rec] c8msg "conn-8" =
      .ok ({ c8rec with
              state := none,
              error_msg := some (problemReportErrorMsg c8msg) },
           [.saveRecord "received problem report"]) ∧
    problemReportErrorMsg c8msg = "abandoned-consent: user declined" :=
  ⟨(c8_problem_report [c8rec] c8msg "conn-8" c8rec (by decide)).1, rfl⟩

/-! ## C9: credential_definition_id across offers -/

/-- Every successful receive_offer leaves the record with
credential_definition_id equal to the inbound offer cred_def_id, whatever
value the record held before. -/
theorem receive_offer_sets_cred_def_id (store : List CredExRecord)
    (msg : CredentialOfferMsg) (conn : String) (preserve : Bool)
    (freshId : String) (out : CredExRecord) (effs : List Eff)
    (h : receive_offer store msg conn preserve freshId = .ok (out, effs)) :
    out.credential_definition_id = some msg.offer.cred_def_id := by
  simp only [receive_offer] at h
  split at h <;> simp at h
  all_goals rw [← h.1]

/-- Every successful create_offer leaves the record with
credential_definition_id equal to the cred_def_id of the offer payload
wrapped in the outbound message, whatever value the record held before. -/
theorem create_offer_sets_cred_def_id (env : OfferEnv) (rec : CredExRecord)
    (counter : Option CredentialProposalMsg) (comment : Option String)
    (msgId : String) (out : CredExRecord) (msg : CredentialOfferMsg)
    (effs : List Eff)
    (h : create_offer env rec counter comment msgId =
      ⟨out, .ok msg, effs⟩) :
    out.credential_definition_id = some msg.offer.cred_def_id := by
  simp only [create_offer] at h
  split at h
  · simp at h
  · split at h
    · simp at h
    · split at h
      · simp at h
      · split at h
        · simp at h
        · split at h <;>
          · simp only [Flow.mk.injEq, Except.ok.injEq] at h
            obtain ⟨ho, hm2, _⟩ := h
            rw [← ho, ← hm2]

/-- Concrete inputs for the C9 counterexample: a record that already
carries credential_definition_id CD:9a receives, on its own thread, a
second offer whose payload names CD:9b. -/
def c9rec : CredExRecord :=
  { credential_exchange_id := "cx-9", connection_id := some "conn-9",
    thread_id := some "t9", state := some .offerReceived,
    schema_id := some "S:9", credential_definition_id := some "CD:9a" }

def c9msg : CredentialOfferMsg :=
  { thread_id := "t9", comment := none, previewAttrs := ["name"],
    offer := { schema_id := "S:9", cred_def_id := "CD:9b", nonce := "n9b",
               rest := "kcp" } }

/-- C9, counterexample: the claim is false on the code.  receive_offer on
the existing record reassigns credential_definition_id from CD:9a to
CD:9b. -/
theorem c9_counterexample :
    c9rec.credential_definition_id = some "CD:9a" ∧
    (match receive_offer [c9rec] c9msg "conn-9" false "fresh-9" with
     | .ok (r, _) => r.credential_definition_id
     | .error _ => none) = some "CD:9b" ∧
    ("CD:9a" : String) ≠ "CD:9b" :=
  ⟨rfl, by decide, by decide⟩

/-- C9, amended: credential_definition_id is not protected from
reassignment.  receive_offer (on an existing record as well as a fresh one)
and create_offer always set it to the cred_def_id of the offer they
process, so a later offer carrying a different cred-def on the same record
reassigns it; the value stays fixed only while every subsequent offer
names the same cred-def. -/
theorem c9_cred_def_id_reassigned (store : List CredExRecord)
    (msg : CredentialOfferMsg) (conn : String) (preserve : Bool)
    (freshId : String) (out : CredExRecord) (effs : List Eff)
    (envO : OfferEnv) (rec : CredExRecord)
    (counter : Option CredentialProposalMsg) (comment : Option String)
    (msgId : String) (outO : CredExRecord) (msgO : CredentialOfferMsg)
    (effsO : List Eff)
    (h9 : receive_offer store msg conn preserve freshId = .ok (out, effs))
    (hO : create_offer envO rec counter comment msgId =
      ⟨outO, .ok msgO, effsO⟩) :
    out.credential_definition_id = some msg.offer.cred_def_id ∧
    outO.credential_definition_id = some msgO.offer.cred_def_id :=
  ⟨receive_offer_sets_cred_def_id store msg conn preserve freshId out effs
     h9,
   create_offer_sets_cred_def_id envO rec counter comment msgId outO msgO
     effsO hO⟩

/-- Concrete create_offer inputs for the C9 witness. -/
def c9osent : CredDefSentRecord :=
  { schema_id := "S:9o", schema_issuer_did := "did:sov:I9",
    schema_name := "ident9", schema_version := "1.0",
    issuer_did := "did:sov:I9", cred_def_id := "CD:9o", epoch := 2 }

def c9oenv : OfferEnv :=
  { sentCredDefs := [c9osent], credDefId2SchemaId := fun _ => "S:9o",
    schemaOf := fun _ => { attrNames := ["name"] },
    issuerOffer := fun c =>
      { schema_id := "S:9o", cred_def_id := c, nonce := "n9o",
        rest := "k" },
    cacheEntry := none }

def c9op : CredentialProposalMsg :=
  { comment := none, preview := some ["name"], schema_id := none,
    schema_issuer_did := none, schema_name := none, schema_version := none,
    cred_def_id := some "CD:9o", issuer_did := none }

def c9orec : CredExRecord :=
  { credential_exchange_id := "cx-9o", thread_id := some "t9o",
    state := some .proposalReceived, credential_proposal_dict := some c9op }

def c9ooffer : IndyOffer :=
  { schema_id := "S:9o", cred_def_id := "CD:9o", nonce := "n9o",
    rest := "k" }

def c9omsg : CredentialOfferMsg :=
  { thread_id := "t9o", comment := none, previewAttrs := ["name"],
    offer := c9ooffer }

def c9oout : CredExRecord :=
  { c9orec with
    thread_id := some "t9o", schema_id := some "S:9o",
    credential_definition_id := some "CD:9o", state := some .offerSent,
    credential_proposal_dict := some c9op,
    credential_offer := some c9ooffer }

/-- The record produced by the witness receive_offer run. -/
def c9out : CredExRecord :=
  { c9rec with
    credential_proposal_dict := some
      { comment := none, preview := some ["name"], schema_id := some "S:9",
        schema_issuer_did := none, schema_name := none,
        schema_version := none, cred_def_id := some "CD:9b",
        issuer_did := none },
    credential_offer := some c9msg.offer, state := some .offerReceived,
    schema_id := some "S:9", credential_definition_id := some "CD:9b" }

/-- C9, witness: the amended theorem applied to the concrete receive_offer
and create_offer runs. -/
theorem c9_witness :
    c9out.credential_definition_id = some c9msg.offer.cred_def_id ∧
    c9oout.credential_definition_id = some c9omsg.offer.cred_def_id :=
  c9_cred_def_id_reassigned [c9rec] c9msg "conn-9" false "fresh-9" c9out
    [.saveRecord "receive credential offer"] c9oenv c9orec none none "m9o"
    c9oout c9omsg
    [.issuerCreateOffer "CD:9o", .saveRecord "create credential offer"]
    (by decide) (by decide)

/-! ## C10: receive_request lookup fallback -/

/-- C10: with a well-formed single-attachment request message, a hit on the
(connection, thread) lookup advances that record to REQUEST_RECEIVED with
its connection untouched; on a miss, the unique record with the same
thread id and no connection id is used instead, the inbound connection id
bound to it in the saved record; and the cannot-start-from-request failure
occurs exactly when both lookups miss. -/
theorem c10_receive_request_fallback (store : List CredExRecord)
    (msg : CredentialRequestMsgIn) (conn : String) (req : IndyCredRequest)
    (hatt : msg.requests_attach = [req]) :
    (∀ r, retrieve_by_connection_and_thread store conn msg.thread_id =
        .found r →
      receive_request store msg conn =
        .ok ({ r with
                credential_request := some req,
                state := some .requestReceived },
             [.saveRecord "receive credential request"])) ∧
    (∀ r, retrieve_by_connection_and_thread store conn msg.thread_id =
        .notFound →
      retrieve_by_thread_no_connection store msg.thread_id = .found r →
      receive_request store msg conn =
        .ok ({ r with
                connection_id := some conn,
                credential_request := some req,
                state := some .requestReceived },
             [.saveRecord "receive credential request"])) ∧
    (receive_request store msg conn = .error .cantStartFromRequest ↔
      retrieve_by_connection_and_thread store conn msg.thread_id =
        .notFound ∧
      retrieve_by_thread_no_connection store msg.thread_id = .notFound) := by
  refine ⟨?_, ?_, ?_, ?_⟩
  · intro r hr
    simp [receive_request, hatt, hr]
  · intro r hr hf
    simp [receive_request, hatt, hr, hf]
  · intro he
    cases h1 : retrieve_by_connection_and_thread store conn
        msg.thread_id with
    | found r => simp [receive_request, hatt, h1] at he
    | duplicate => simp [receive_request, hatt, h1] at he
    | notFound =>
      cases h2 : retrieve_by_thread_no_connection store msg.thread_id with
      | found r => simp [receive_request, hatt, h1, h2] at he
      | duplicate => simp [receive_request, hatt, h1, h2] at he
      | notFound => exact ⟨rfl, rfl⟩
  · intro h
    simp [receive_request, hatt, h.1, h.2]

/-- Concrete inputs for the C10 witness: a record awaiting its first
connection binding. -/
def c10rec : CredExRecord :=
  { credential_exchange_id := "cx-10", connection_id := none,
    thread_id := some "t10", state := some .offerSent }

def c10req : IndyCredRequest := ⟨"req10"⟩

def c10msg : CredentialRequestMsgIn :=
  { thread_id := "t10", requests_attach := [c10req] }

/-- C10, witness: the fallback branch applied concretely; the inbound
connection id is bound before the record advances. -/
theorem c10_witness :
    receive_request [c10rec] c10msg "c-new" =
      .ok ({ c10rec with
              connection_id := some "c-new",
              credential_request := some c10req,
              state := some .requestReceived },
           [.saveRecord "receive credential request"]) :=
  (c10_receive_request_fallback [c10rec] c10msg "c-new" c10req rfl).2.1
    c10rec (by decide) (by decide)

end IssueCredV1
